import Mathlib

/-!
Shallow embedding of the escrow-sell program (src/src/processor.rs,
src/src/instruction.rs, src/src/error.rs) for checking its specification.

Machine integers: u64/usize values are Nats; Rust release-mode arithmetic
wraps on overflow, modelled by explicit reduction mod 2^64.  Account keys
(Pubkey) are abstract identities modelled as Nats compared for equality.
External collaborators (rent sysvar, PDA derivation, metadata-address
derivation, byte-level unpacking of token/mint/metadata accounts) enter as
parameters or as already-parsed input fields; the engine only compares or
consumes their results.  Each cross-program invocation the processor issues
(system transfer, token transfer, set-authority, close) is recorded as an
effect in a trace; a handler returns the trace of effects it issued before
returning, together with the error it returned, if any.
-/

set_option maxRecDepth 8000

namespace EscrowSC

/-- 2^64, the modulus of u64/usize arithmetic on the 64-bit target. -/
def U64MOD : Nat := 2 ^ 64

/-- Rust release-mode wrapping u64 multiplication. -/
def mul64 (a b : Nat) : Nat := a * b % U64MOD

/-- Rust release-mode wrapping u64 subtraction (operands below 2^64). -/
def sub64 (a b : Nat) : Nat := (a + U64MOD - b) % U64MOD

/-- u64::checked_add, as used when closing the escrow account
(processor.rs:297-300). -/
def checked_add (a b : Nat) : Option Nat :=
  if a + b < U64MOD then some (a + b) else none

/-- processor.rs:20 -/
def SALES_TAX : Nat := 250

/-- processor.rs:21 -/
def LISTING_FEE : Nat := 10000000

/-- The fixed fee-recipient identity (processor.rs:18).  The concrete 32-byte
key obtained by base58-decoding the constant is abstracted as a distinguished
identity; the processor only compares supplied keys against it. -/
def SALES_TAX_RECIPIENT : Nat := 8

/-- Modelled from the spec: the persisted Escrow record (state.rs is declared
in lib.rs but missing from src/); spec section 3 and section 6 give its fields:
initialized flag, initializer identity, mint identity, held-account identity,
expected amount. -/
structure Escrow where
  is_initialized : Bool
  initializer_pubkey : Nat
  mint_pubkey : Nat
  temp_token_account_pubkey : Nat
  expected_amount : Nat
deriving DecidableEq

/-- Modelled from the spec: one creator entry of the metadata record
(metadata.rs is missing from src/); spec section 3: an ordered list of
(creator identity, share percent) pairs. -/
structure Creator where
  address : Nat
  share : Nat
deriving DecidableEq

/-- Modelled from the spec: the semantic fields of the metadata record the
processor consumes: seller_fee_basis_points and the optional creator list. -/
structure MetadataData where
  seller_fee_basis_points : Nat
  creators : Option (List Creator)
deriving DecidableEq

/-- Modelled from the spec: a parsed metadata account, as consumed at
processor.rs:207-238 through the field path md.data. -/
structure Metadata where
  data : MetadataData
deriving DecidableEq

/-- Errors the two handlers return: the EscrowError variants of
src/src/error.rs together with the solana ProgramError variants the
processor uses directly. -/
inductive ProgError where
  | missingRequiredSignature
  | uninitializedAccount
  | accountAlreadyInitialized
  | notRentExempt
  | invalidMintAccount
  | invalidTokenAmount
  | invalidSalesTaxRecipient
  | expectedAmountMismatch
  | invalidAccountData
  | invalidRoyaltyFee
  | creatorMismatch
  | invalidFinalAmount
  | amountOverflow
deriving DecidableEq

/-- The cross-program invocations process_exchange issues, in issue order:
the sales-tax system transfer (processor.rs:203-204), a royalty system
transfer to one creator (processor.rs:232-233), the payment system transfer
to the initializer (processor.rs:252-253), the token transfer of the held
balance to the taker (processor.rs:257-274), the close of the held token
account to the initializer (processor.rs:276-294), and the crediting of the
escrow account balance to the initializer when the record is closed
(processor.rs:297-301). -/
inductive Effect where
  | xferSalesTax (src dst amount : Nat)
  | xferRoyalty (src dst amount : Nat)
  | xferPayment (src dst amount : Nat)
  | tokenTransferToTaker (src dst authority amount : Nat)
  | closeTempAccount (acct dst authority : Nat)
  | closeEscrowCredit (dst amount : Nat)
deriving DecidableEq

/-- The invocations process_init_escrow issues, in issue order: the listing
fee system transfer (processor.rs:94-97), persisting the populated record
(processor.rs:99-105), and the authority handover of the held account to the
program-derived authority (processor.rs:108-125). -/
inductive InitEffect where
  | xferListingFee (src dst amount : Nat)
  | writeEscrow (record : Escrow)
  | setAuthority (acct newAuth curAuth : Nat)
deriving DecidableEq

/-- The wrapping usize computation 10_usize.pow(decimals) of
processor.rs:70 on the 64-bit target. -/
def usize_pow10 (decimals : Nat) : Nat := 10 ^ decimals % U64MOD

/-- Input state of process_init_escrow: account keys, the signer flag, and
the parsed contents of the mint, temp token and escrow accounts
(processor.rs:49-58, 64-65, 82). -/
structure InitInput where
  initializer_key : Nat
  initializer_is_signer : Bool
  temp_token_account_key : Nat
  temp_token_mint : Nat
  temp_token_amount : Nat
  mint_key : Nat
  mint_decimals : Nat
  escrow_account_lamports : Nat
  escrow_account_data_len : Nat
  escrow_data : Escrow
  sales_tax_recipient_key : Nat
deriving DecidableEq

/-- processor.rs:44-128.  is_exempt is the rent sysvar's retention check
(external), pda the program-derived authority from find_program_address;
amount is the instruction payload.  Returns the issued effects and the
error returned, if any. -/
def process_init_escrow (is_exempt : Nat → Nat → Bool) (pda : Nat)
    (inp : InitInput) (amount : Nat) : List InitEffect × Option ProgError :=
  if !inp.initializer_is_signer then
    ([], some .missingRequiredSignature)
  else if inp.mint_key ≠ inp.temp_token_mint then
    ([], some .invalidMintAccount)
  else if usize_pow10 inp.mint_decimals ≠ inp.temp_token_amount then
    ([], some .invalidTokenAmount)
  else if !is_exempt inp.escrow_account_lamports inp.escrow_account_data_len then
    ([], some .notRentExempt)
  else if inp.escrow_data.is_initialized then
    ([], some .accountAlreadyInitialized)
  else if inp.sales_tax_recipient_key ≠ SALES_TAX_RECIPIENT then
    ([], some .invalidSalesTaxRecipient)
  else
    ((if LISTING_FEE > 0 then
        [InitEffect.xferListingFee inp.initializer_key inp.sales_tax_recipient_key LISTING_FEE]
      else []) ++
     [InitEffect.writeEscrow
        { is_initialized := true
          initializer_pubkey := inp.initializer_key
          mint_pubkey := inp.mint_key
          temp_token_account_pubkey := inp.temp_token_account_key
          expected_amount := amount },
      InitEffect.setAuthority inp.temp_token_account_key pda inp.initializer_key],
     none)

/-- Input state of process_exchange: account keys, the signer flag, and the
parsed contents of the temp token account, the escrow account and the
metadata account (processor.rs:137-151, 159-160, 169, 207); metadata_parse
is the result of Metadata::from_u8 on the metadata account bytes, none when
parsing fails; creator_account_keys are the trailing accounts of
processor.rs:151. -/
structure ExchangeInput where
  taker_key : Nat
  taker_is_signer : Bool
  takers_token_to_receive_key : Nat
  pdas_temp_token_key : Nat
  pdas_temp_token_amount : Nat
  initializers_main_key : Nat
  initializers_main_lamports : Nat
  escrow_account_lamports : Nat
  escrow_data : Escrow
  sales_tax_recipient_key : Nat
  mint_key : Nat
  metadata_key : Nat
  metadata_parse : Option Metadata
  creator_account_keys : List Nat
deriving DecidableEq

/-- The sales-tax amount of processor.rs:202: (am * SALES_TAX) / 10000 in
wrapping u64 arithmetic. -/
def tax_of (am : Nat) : Nat := mul64 am SALES_TAX / 10000

/-- The royalty total of processor.rs:210:
(seller_fee_basis_points * am) / 10000 in wrapping u64 arithmetic. -/
def royalty_total_of (fee am : Nat) : Nat := mul64 fee am / 10000

/-- The seller amount of processor.rs:247: am - tax - royalty_total in
wrapping u64 arithmetic. -/
def final_amount_of (am tax rt : Nat) : Nat := sub64 (sub64 am tax) rt

/-- The creator payout loop of processor.rs:225-235, walking the metadata
creator list and the supplied creator accounts in step (the caller has
already checked the lengths match, processor.rs:221-224).  Each matching
creator is paid (share * royalty_total) / 100 before the next is checked;
the first identity mismatch returns CreatorMismatch. -/
def creator_payouts (taker rt : Nat) :
    List Creator → List Nat → List Effect × Option ProgError
  | [], _ => ([], none)
  | _ :: _, [] => ([], some .creatorMismatch)
  | c :: cs, k :: ks =>
    if c.address ≠ k then
      ([], some .creatorMismatch)
    else
      let rest := creator_payouts taker rt cs ks
      (Effect.xferRoyalty taker c.address (mul64 c.share rt / 100) :: rest.1, rest.2)

/-- The royalty block of processor.rs:206-244: the computed royalty_total
(0 when the metadata does not parse), the royalty transfers issued and the
error, if any.  When the metadata parses, royalty_total is computed before
the combined-fee guard, and it keeps its value even when the creator list
is absent. -/
def royalty_phase (inp : ExchangeInput) (am : Nat) :
    Nat × List Effect × Option ProgError :=
  match inp.metadata_parse with
  | some md =>
    let rt := royalty_total_of md.data.seller_fee_basis_points am
    if md.data.seller_fee_basis_points + SALES_TAX > 10000 then
      (rt, [], some .invalidRoyaltyFee)
    else
      match md.data.creators with
      | some creators =>
        if creators.length ≠ inp.creator_account_keys.length then
          (rt, [], some .creatorMismatch)
        else
          let lp := creator_payouts inp.taker_key rt creators inp.creator_account_keys
          (rt, lp.1, lp.2)
      | none => (rt, [], none)
  | none => (0, [], none)

/-- The paid-settlement block of processor.rs:198-254: on the cancellation
branch (taker == initializer) nothing is issued; otherwise the sales-tax
transfer is issued first, then the royalty block runs, then the seller
amount is checked and the payment transfer issued. -/
def paid_phase (inp : ExchangeInput) : List Effect × Option ProgError :=
  if inp.taker_key ≠ inp.escrow_data.initializer_pubkey then
    let am := inp.escrow_data.expected_amount
    let tax := tax_of am
    let r := royalty_phase inp am
    let es := Effect.xferSalesTax inp.taker_key inp.sales_tax_recipient_key tax :: r.2.1
    match r.2.2 with
    | some e => (es, some e)
    | none =>
      let fin := final_amount_of am tax r.1
      if fin ≤ 0 then
        (es, some .invalidFinalAmount)
      else
        (es ++ [Effect.xferPayment inp.taker_key inp.escrow_data.initializer_pubkey fin], none)
  else ([], none)

/-- The validation sequence of processor.rs:154-196, in source order; the
uninitializedAccount case is the failure of Escrow::unpack on a record whose
initialized flag is clear (Pack::unpack semantics; state.rs is missing from
src/, behaviour modelled from the spec's state machine: an instruction
targeting a record not in the expected state fails).  derive_metadata is the
metadata-address derivation of processor.rs:192 (external). -/
def validate (derive_metadata : Nat → Nat) (inp : ExchangeInput)
    (amount_expected_by_taker : Nat) : Option ProgError :=
  if !inp.taker_is_signer then some .missingRequiredSignature
  else if amount_expected_by_taker ≠ inp.pdas_temp_token_amount then
    some .expectedAmountMismatch
  else if !inp.escrow_data.is_initialized then some .uninitializedAccount
  else if inp.escrow_data.temp_token_account_pubkey ≠ inp.pdas_temp_token_key then
    some .invalidAccountData
  else if inp.escrow_data.initializer_pubkey ≠ inp.initializers_main_key then
    some .invalidAccountData
  else if inp.sales_tax_recipient_key ≠ SALES_TAX_RECIPIENT then
    some .invalidSalesTaxRecipient
  else if inp.escrow_data.mint_pubkey ≠ inp.mint_key then
    some .invalidAccountData
  else if derive_metadata inp.mint_key ≠ inp.metadata_key then
    some .invalidAccountData
  else none

/-- The common tail of processor.rs:256-303: transfer the full held balance
to the taker's destination under the program-derived authority, close the
held account to the initializer, then close the escrow record, crediting its
balance to the initializer with a checked addition. -/
def common_tail (pda : Nat) (inp : ExchangeInput) : List Effect × Option ProgError :=
  let t := [Effect.tokenTransferToTaker inp.pdas_temp_token_key
              inp.takers_token_to_receive_key pda inp.pdas_temp_token_amount,
            Effect.closeTempAccount inp.pdas_temp_token_key
              inp.initializers_main_key pda]
  match checked_add inp.initializers_main_lamports inp.escrow_account_lamports with
  | some _ => (t ++ [Effect.closeEscrowCredit inp.initializers_main_key
                       inp.escrow_account_lamports], none)
  | none => (t, some .amountOverflow)

/-- processor.rs:130-304: validation, then the paid-settlement block, then
the common tail.  Returns the issued effects and the error returned, if
any. -/
def process_exchange (derive_metadata : Nat → Nat) (pda : Nat)
    (inp : ExchangeInput) (amount_expected_by_taker : Nat) :
    List Effect × Option ProgError :=
  match validate derive_metadata inp amount_expected_by_taker with
  | some e => ([], some e)
  | none =>
    let p := paid_phase inp
    match p.2 with
    | some e => (p.1, some e)
    | none =>
      let t := common_tail pda inp
      (p.1 ++ t.1, t.2)

/-- The conjunction of all checks of processor.rs:154-196 passing. -/
def checks_pass (derive_metadata : Nat → Nat) (inp : ExchangeInput)
    (amount_expected_by_taker : Nat) : Prop :=
  inp.taker_is_signer = true ∧
  amount_expected_by_taker = inp.pdas_temp_token_amount ∧
  inp.escrow_data.is_initialized = true ∧
  inp.escrow_data.temp_token_account_pubkey = inp.pdas_temp_token_key ∧
  inp.escrow_data.initializer_pubkey = inp.initializers_main_key ∧
  inp.sales_tax_recipient_key = SALES_TAX_RECIPIENT ∧
  inp.escrow_data.mint_pubkey = inp.mint_key ∧
  derive_metadata inp.mint_key = inp.metadata_key

/-- The royalty transfers issued for a list of creators, in order. -/
def royalty_transfers (taker rt : Nat) (cs : List Creator) : List Effect :=
  cs.map (fun c => Effect.xferRoyalty taker c.address (mul64 c.share rt / 100))

/-- Whether an effect is a royalty transfer. -/
def is_royalty : Effect → Bool
  | .xferRoyalty _ _ _ => true
  | _ => false

/-!  Helper lemmas shared by the claim theorems. -/

theorem sub64_of_le {a b : Nat} (hb : b ≤ a) (ha : a < U64MOD) : sub64 a b = a - b := by
  unfold sub64
  have h1 : a + U64MOD - b = a - b + U64MOD := by omega
  rw [h1, Nat.add_mod_right, Nat.mod_eq_of_lt (by omega)]

theorem validate_eq_none {dm : Nat → Nat} {inp : ExchangeInput} {amt : Nat}
    (h : checks_pass dm inp amt) : validate dm inp amt = none := by
  obtain ⟨h1, h2, h3, h4, h5, h6, h7, h8⟩ := h
  simp [validate, h1, h2, h3, h4, h5, h6, h7, h8]

theorem checks_pass_keys_irrel {dm : Nat → Nat} {inp : ExchangeInput} {amt : Nat}
    (ks : List Nat) (h : checks_pass dm inp amt) :
    checks_pass dm { inp with creator_account_keys := ks } amt := by
  simpa [checks_pass] using h

theorem paid_phase_cancel {inp : ExchangeInput}
    (he : inp.taker_key = inp.escrow_data.initializer_pubkey) :
    paid_phase inp = ([], none) := by
  unfold paid_phase
  simp [he]

theorem paid_phase_of_royalty_err {inp : ExchangeInput} {rt : Nat} {es : List Effect}
    {e : ProgError}
    (hne : inp.taker_key ≠ inp.escrow_data.initializer_pubkey)
    (hr : royalty_phase inp inp.escrow_data.expected_amount = (rt, es, some e)) :
    paid_phase inp =
      (Effect.xferSalesTax inp.taker_key inp.sales_tax_recipient_key
         (tax_of inp.escrow_data.expected_amount) :: es, some e) := by
  unfold paid_phase
  rw [if_pos hne]
  simp [hr]

theorem paid_phase_of_final_zero {inp : ExchangeInput} {rt : Nat} {es : List Effect}
    (hne : inp.taker_key ≠ inp.escrow_data.initializer_pubkey)
    (hr : royalty_phase inp inp.escrow_data.expected_amount = (rt, es, none))
    (hf : final_amount_of inp.escrow_data.expected_amount
            (tax_of inp.escrow_data.expected_amount) rt = 0) :
    paid_phase inp =
      (Effect.xferSalesTax inp.taker_key inp.sales_tax_recipient_key
         (tax_of inp.escrow_data.expected_amount) :: es,
       some ProgError.invalidFinalAmount) := by
  unfold paid_phase
  rw [if_pos hne]
  simp [hr, hf]

theorem paid_phase_of_final_pos {inp : ExchangeInput} {rt : Nat} {es : List Effect}
    (hne : inp.taker_key ≠ inp.escrow_data.initializer_pubkey)
    (hr : royalty_phase inp inp.escrow_data.expected_amount = (rt, es, none))
    (hf : final_amount_of inp.escrow_data.expected_amount
            (tax_of inp.escrow_data.expected_amount) rt ≠ 0) :
    paid_phase inp =
      (Effect.xferSalesTax inp.taker_key inp.sales_tax_recipient_key
         (tax_of inp.escrow_data.expected_amount) ::
         (es ++ [Effect.xferPayment inp.taker_key inp.escrow_data.initializer_pubkey
           (final_amount_of inp.escrow_data.expected_amount
             (tax_of inp.escrow_data.expected_amount) rt)]),
       none) := by
  unfold paid_phase
  rw [if_pos hne]
  simp [hr, hf]

theorem process_exchange_paid_err {dm : Nat → Nat} {pda : Nat} {inp : ExchangeInput}
    {amt : Nat} {e : ProgError}
    (hv : validate dm inp amt = none) (hp : (paid_phase inp).2 = some e) :
    process_exchange dm pda inp amt = ((paid_phase inp).1, some e) := by
  unfold process_exchange
  rw [hv]
  simp [hp]

theorem process_exchange_paid_ok {dm : Nat → Nat} {pda : Nat} {inp : ExchangeInput}
    {amt : Nat}
    (hv : validate dm inp amt = none) (hp : (paid_phase inp).2 = none) :
    process_exchange dm pda inp amt =
      ((paid_phase inp).1 ++ (common_tail pda inp).1, (common_tail pda inp).2) := by
  unfold process_exchange
  rw [hv]
  simp [hp]

theorem common_tail_ok {pda : Nat} {inp : ExchangeInput}
    (h : inp.initializers_main_lamports + inp.escrow_account_lamports < U64MOD) :
    common_tail pda inp =
      ([Effect.tokenTransferToTaker inp.pdas_temp_token_key
          inp.takers_token_to_receive_key pda inp.pdas_temp_token_amount,
        Effect.closeTempAccount inp.pdas_temp_token_key inp.initializers_main_key pda,
        Effect.closeEscrowCredit inp.initializers_main_key inp.escrow_account_lamports],
       none) := by
  unfold common_tail checked_add
  rw [if_pos h]
  rfl

theorem creator_payouts_of_match (t rt : Nat) (cs : List Creator) :
    ∀ ks : List Nat, cs.map Creator.address = ks →
      creator_payouts t rt cs ks = (royalty_transfers t rt cs, none) := by
  induction cs with
  | nil =>
    intro ks h
    simp at h
    subst h
    rfl
  | cons c cs ih =>
    intro ks h
    cases ks with
    | nil => simp at h
    | cons k ks =>
      simp only [List.map_cons, List.cons.injEq] at h
      obtain ⟨h1, h2⟩ := h
      simp only [creator_payouts]
      rw [if_neg (by simp [h1])]
      simp [ih ks h2, royalty_transfers, h1]

theorem creator_payouts_mismatch (t rt : Nat) (pre : List Creator) :
    ∀ (kpre : List Nat) (c : Creator) (rest : List Creator) (k : Nat) (krest : List Nat),
      pre.map Creator.address = kpre → c.address ≠ k →
      creator_payouts t rt (pre ++ c :: rest) (kpre ++ k :: krest) =
        (royalty_transfers t rt pre, some ProgError.creatorMismatch) := by
  induction pre with
  | nil =>
    intro kpre c rest k krest h hne
    simp at h
    subst h
    simp [creator_payouts, hne, royalty_transfers]
  | cons p pre ih =>
    intro kpre c rest k krest h hne
    cases kpre with
    | nil => simp at h
    | cons kp kpre =>
      simp only [List.map_cons, List.cons.injEq] at h
      obtain ⟨h1, h2⟩ := h
      simp only [List.cons_append, creator_payouts]
      rw [if_neg (by simp [h1])]
      simp [ih kpre c rest k krest h2 hne, royalty_transfers, h1]

theorem royalty_phase_keys_irrel {inp : ExchangeInput} {am : Nat} (ks : List Nat)
    (h : inp.metadata_parse = none ∨
         ∃ md, inp.metadata_parse = some md ∧ md.data.creators = none) :
    royalty_phase { inp with creator_account_keys := ks } am = royalty_phase inp am := by
  rcases h with h | ⟨md, hm, hc⟩ <;> simp [royalty_phase, *]

theorem royalty_phase_shape {inp : ExchangeInput} {am : Nat}
    (h : inp.metadata_parse = none ∨
         ∃ md, inp.metadata_parse = some md ∧ md.data.creators = none) :
    (royalty_phase inp am).2.1 = [] ∧
    ((royalty_phase inp am).2.2 = none ∨
     (royalty_phase inp am).2.2 = some ProgError.invalidRoyaltyFee) := by
  rcases h with h | ⟨md, hm, hc⟩
  · simp [royalty_phase, h]
  · by_cases hf : md.data.seller_fee_basis_points + SALES_TAX > 10000 <;>
      simp [royalty_phase, hm, hc, hf]

theorem init_success_conditions {ie : Nat → Nat → Bool} {pda : Nat} {inp : InitInput}
    {amount : Nat} {es : List InitEffect}
    (h : process_init_escrow ie pda inp amount = (es, none)) :
    inp.initializer_is_signer = true ∧ inp.mint_key = inp.temp_token_mint ∧
    usize_pow10 inp.mint_decimals = inp.temp_token_amount ∧
    ie inp.escrow_account_lamports inp.escrow_account_data_len = true ∧
    inp.escrow_data.is_initialized = false ∧
    inp.sales_tax_recipient_key = SALES_TAX_RECIPIENT := by
  unfold process_init_escrow at h
  repeat' split at h
  all_goals simp_all

/-!  Claim theorems. -/

/-- C10: for every mint whose declared decimals give a power of ten that fits
in usize on the 64-bit target, the one-unit check of processor.rs:70 compares
the held balance against exactly 10^decimals; and already at 20 decimals the
mathematical power 10^20 exceeds the usize range, so the unchecked power
computation 10_usize.pow(decimals) overflows instead of producing the exact
power for the comparison. -/
theorem c10_pow10_check :
    (∀ d amt : Nat, 10 ^ d < U64MOD → (usize_pow10 d = amt ↔ amt = 10 ^ d)) ∧
    U64MOD ≤ 10 ^ 20 := by
  constructor
  · intro d amt h
    unfold usize_pow10
    rw [Nat.mod_eq_of_lt h]
    exact eq_comm
  · decide

/-- Witness for C10 at 9 decimals and a balance of 10^9. -/
theorem c10_witness :
    (usize_pow10 9 = 1000000000 ↔ (1000000000 : Nat) = 10 ^ 9) ∧ U64MOD ≤ 10 ^ 20 :=
  ⟨c10_pow10_check.1 9 1000000000 (by decide), c10_pow10_check.2⟩

/-- C8 counterexample: a mint declaring 20 decimals: 10^20 wraps to
7766279631452241920 in usize, so InitEscrow succeeds on a held balance of
7766279631452241920 units even though that balance is not 10^20, against the
claim that every balance other than 10^decimals fails with
InvalidTokenAmount. -/
theorem c8_counterexample :
    process_init_escrow (fun _ _ => true) 9
      { initializer_key := 1, initializer_is_signer := true,
        temp_token_account_key := 3, temp_token_mint := 5,
        temp_token_amount := 7766279631452241920, mint_key := 5,
        mint_decimals := 20, escrow_account_lamports := 100,
        escrow_account_data_len := 73,
        escrow_data := { is_initialized := false, initializer_pubkey := 0,
                         mint_pubkey := 0, temp_token_account_pubkey := 0,
                         expected_amount := 0 },
        sales_tax_recipient_key := 8 } 5 =
      ([InitEffect.xferListingFee 1 8 10000000,
        InitEffect.writeEscrow
          { is_initialized := true, initializer_pubkey := 1, mint_pubkey := 5,
            temp_token_account_pubkey := 3, expected_amount := 5 },
        InitEffect.setAuthority 3 9 1], none) ∧
    (7766279631452241920 : Nat) ≠ 10 ^ 20 := by
  exact ⟨rfl, by decide⟩

/-- C8 (amended): for every mint whose 10^decimals fits in u64 (decimals at
most 19), InitEscrow succeeds only when the held balance equals exactly
10^decimals, and once the signer and mint checks pass every other balance
fails with InvalidTokenAmount; for larger decimals the u64-wrapped power is
compared instead. -/
theorem c8_one_unit_requirement :
    ∀ (ie : Nat → Nat → Bool) (pda : Nat) (inp : InitInput) (amount : Nat),
      10 ^ inp.mint_decimals < U64MOD →
      (∀ es, process_init_escrow ie pda inp amount = (es, none) →
          inp.temp_token_amount = 10 ^ inp.mint_decimals) ∧
      (inp.initializer_is_signer = true → inp.mint_key = inp.temp_token_mint →
          inp.temp_token_amount ≠ 10 ^ inp.mint_decimals →
          process_init_escrow ie pda inp amount = ([], some ProgError.invalidTokenAmount)) := by
  intro ie pda inp amount hd
  constructor
  · intro es h
    have hc := (init_success_conditions h).2.2.1
    unfold usize_pow10 at hc
    rw [Nat.mod_eq_of_lt hd] at hc
    exact hc.symm
  · intro h1 h2 h3
    have hne : usize_pow10 inp.mint_decimals ≠ inp.temp_token_amount := by
      unfold usize_pow10
      rw [Nat.mod_eq_of_lt hd]
      exact fun he => h3 he.symm
    unfold process_init_escrow
    simp [h1, h2, hne]

/-- Witness for C8 at 2 decimals with a held balance of 7 units. -/
theorem c8_witness :
    process_init_escrow (fun _ _ => true) 9
      { initializer_key := 1, initializer_is_signer := true,
        temp_token_account_key := 3, temp_token_mint := 5,
        temp_token_amount := 7, mint_key := 5,
        mint_decimals := 2, escrow_account_lamports := 100,
        escrow_account_data_len := 73,
        escrow_data := { is_initialized := false, initializer_pubkey := 0,
                         mint_pubkey := 0, temp_token_account_pubkey := 0,
                         expected_amount := 0 },
        sales_tax_recipient_key := 8 } 5 =
      ([], some ProgError.invalidTokenAmount) :=
  (c8_one_unit_requirement (fun _ _ => true) 9 _ 5 (by decide)).2 rfl rfl (by decide)

/-- C7: once a record is initialized, a second InitEscrow on it fails with
AccountAlreadyInitialized for every instruction payload, provided the checks
that precede the initialization check (signer, mint match, one-unit balance,
rent exemption) pass as they did on the first call; and a successful
InitEscrow only ever happens on an uninitialized record, so the
uninitialized-to-initialized transition happens at most once per record. -/
theorem c7_reinit_fails :
    (∀ (ie : Nat → Nat → Bool) (pda : Nat) (inp : InitInput) (amount : Nat),
       inp.initializer_is_signer = true →
       inp.mint_key = inp.temp_token_mint →
       usize_pow10 inp.mint_decimals = inp.temp_token_amount →
       ie inp.escrow_account_lamports inp.escrow_account_data_len = true →
       inp.escrow_data.is_initialized = true →
       process_init_escrow ie pda inp amount =
         ([], some ProgError.accountAlreadyInitialized)) ∧
    (∀ (ie : Nat → Nat → Bool) (pda : Nat) (inp : InitInput) (amount : Nat)
       (es : List InitEffect),
       process_init_escrow ie pda inp amount = (es, none) →
       inp.escrow_data.is_initialized = false) := by
  constructor
  · intro ie pda inp amount h1 h2 h3 h4 h5
    unfold process_init_escrow
    simp [h1, h2, h3, h4, h5]
  · intro ie pda inp amount es h
    exact (init_success_conditions h).2.2.2.2.1

/-- Witness for C7: a re-init attempt on an initialized record fails for
payload 42, and a successful init shows the record was uninitialized. -/
theorem c7_witness :
    process_init_escrow (fun _ _ => true) 9
      { initializer_key := 1, initializer_is_signer := true,
        temp_token_account_key := 3, temp_token_mint := 5,
        temp_token_amount := 1, mint_key := 5,
        mint_decimals := 0, escrow_account_lamports := 100,
        escrow_account_data_len := 73,
        escrow_data := { is_initialized := true, initializer_pubkey := 1,
                         mint_pubkey := 5, temp_token_account_pubkey := 3,
                         expected_amount := 77 },
        sales_tax_recipient_key := 8 } 42 =
      ([], some ProgError.accountAlreadyInitialized) ∧
    ({ initializer_key := 1, initializer_is_signer := true,
       temp_token_account_key := 3, temp_token_mint := 5,
       temp_token_amount := 1, mint_key := 5,
       mint_decimals := 0, escrow_account_lamports := 100,
       escrow_account_data_len := 73,
       escrow_data := { is_initialized := false, initializer_pubkey := 0,
                        mint_pubkey := 0, temp_token_account_pubkey := 0,
                        expected_amount := 0 },
       sales_tax_recipient_key := 8 } : InitInput).escrow_data.is_initialized = false :=
  ⟨c7_reinit_fails.1 (fun _ _ => true) 9 _ 42 rfl rfl (by decide) rfl rfl,
   c7_reinit_fails.2 (fun _ _ => true) 9 _ 5
     [InitEffect.xferListingFee 1 8 10000000,
      InitEffect.writeEscrow
        { is_initialized := true, initializer_pubkey := 1, mint_pubkey := 5,
          temp_token_account_pubkey := 3, expected_amount := 5 },
      InitEffect.setAuthority 3 9 1] rfl⟩

/-- C1 counterexample: a paid settlement with price 100 and metadata royalty
rate 9800 bps (9800 + 250 > 10000): Exchange returns InvalidRoyaltyFee, but
only after issuing the sales-tax transfer of 2, against the claim that the
failure happens before any transfer is issued. -/
theorem c1_counterexample :
    process_exchange id 0
      { taker_key := 1, taker_is_signer := true, takers_token_to_receive_key := 2,
        pdas_temp_token_key := 3, pdas_temp_token_amount := 7,
        initializers_main_key := 4, initializers_main_lamports := 100,
        escrow_account_lamports := 50,
        escrow_data := { is_initialized := true, initializer_pubkey := 4,
                         mint_pubkey := 5, temp_token_account_pubkey := 3,
                         expected_amount := 100 },
        sales_tax_recipient_key := 8, mint_key := 5, metadata_key := 5,
        metadata_parse := some { data := { seller_fee_basis_points := 9800,
                                           creators := none } },
        creator_account_keys := [] } 7 =
      ([Effect.xferSalesTax 1 8 2], some ProgError.invalidRoyaltyFee) ∧
    ([Effect.xferSalesTax 1 8 2] : List Effect) ≠ [] := by
  exact ⟨rfl, by decide⟩

/-- C1 (amended): in a paid settlement whose metadata parses with
seller_fee_basis_points + SALES_TAX > 10000, Exchange fails with
InvalidRoyaltyFee before any royalty or payment transfer is issued, but after
the sales-tax transfer has been issued: the invocation's trace is exactly the
one sales-tax transfer. -/
theorem c1_invalid_royalty_fee :
    ∀ (dm : Nat → Nat) (pda : Nat) (inp : ExchangeInput) (amt : Nat) (md : Metadata),
      checks_pass dm inp amt →
      inp.taker_key ≠ inp.escrow_data.initializer_pubkey →
      inp.metadata_parse = some md →
      md.data.seller_fee_basis_points + SALES_TAX > 10000 →
      process_exchange dm pda inp amt =
        ([Effect.xferSalesTax inp.taker_key inp.sales_tax_recipient_key
            (tax_of inp.escrow_data.expected_amount)],
         some ProgError.invalidRoyaltyFee) := by
  intro dm pda inp amt md hcp hne hm hf
  have hr : royalty_phase inp inp.escrow_data.expected_amount =
      (royalty_total_of md.data.seller_fee_basis_points inp.escrow_data.expected_amount,
       [], some ProgError.invalidRoyaltyFee) := by
    simp [royalty_phase, hm, hf]
  have hp := paid_phase_of_royalty_err hne hr
  rw [process_exchange_paid_err (validate_eq_none hcp) (by rw [hp]), hp]

/-- Witness for C1: price 200, royalty rate 9999 bps. -/
theorem c1_witness :
    process_exchange id 0
      { taker_key := 21, taker_is_signer := true, takers_token_to_receive_key := 22,
        pdas_temp_token_key := 23, pdas_temp_token_amount := 7,
        initializers_main_key := 24, initializers_main_lamports := 100,
        escrow_account_lamports := 50,
        escrow_data := { is_initialized := true, initializer_pubkey := 24,
                         mint_pubkey := 25, temp_token_account_pubkey := 23,
                         expected_amount := 200 },
        sales_tax_recipient_key := 8, mint_key := 25, metadata_key := 25,
        metadata_parse := some { data := { seller_fee_basis_points := 9999,
                                           creators := none } },
        creator_account_keys := [] } 7 =
      ([Effect.xferSalesTax 21 8 (tax_of 200)], some ProgError.invalidRoyaltyFee) :=
  c1_invalid_royalty_fee id 0 _ 7 _
    ⟨rfl, rfl, rfl, rfl, rfl, rfl, rfl, rfl⟩ (by decide) rfl (by decide)

/-- C2 counterexample: price 40, royalty rate 9750 bps, one creator with
share 100: tax 1 and the royalty transfer of 39 are issued, then the seller
amount is 0 and Exchange returns InvalidFinalAmount, against the claim that
no tax or royalty transfer occurs in that invocation. -/
theorem c2_counterexample :
    process_exchange id 0
      { taker_key := 1, taker_is_signer := true, takers_token_to_receive_key := 2,
        pdas_temp_token_key := 3, pdas_temp_token_amount := 7,
        initializers_main_key := 4, initializers_main_lamports := 100,
        escrow_account_lamports := 50,
        escrow_data := { is_initialized := true, initializer_pubkey := 4,
                         mint_pubkey := 5, temp_token_account_pubkey := 3,
                         expected_amount := 40 },
        sales_tax_recipient_key := 8, mint_key := 5, metadata_key := 5,
        metadata_parse := some { data := { seller_fee_basis_points := 9750,
                                           creators := some [{ address := 11, share := 100 }] } },
        creator_account_keys := [11] } 7 =
      ([Effect.xferSalesTax 1 8 1, Effect.xferRoyalty 1 11 39],
       some ProgError.invalidFinalAmount) ∧
    ([Effect.xferSalesTax 1 8 1, Effect.xferRoyalty 1 11 39] : List Effect) ≠ [] := by
  exact ⟨rfl, by decide⟩

/-- C2 (amended): in a paid settlement, whenever the royalty block completes
without error and the seller amount price - tax - royalty_total is 0 (as a
u64 it is never negative), Exchange fails with InvalidFinalAmount before the
payment and asset transfers, but the sales-tax transfer and the royalty
transfers have already been issued in that invocation. -/
theorem c2_invalid_final_amount :
    ∀ (dm : Nat → Nat) (pda : Nat) (inp : ExchangeInput) (amt rt : Nat)
      (es : List Effect),
      checks_pass dm inp amt →
      inp.taker_key ≠ inp.escrow_data.initializer_pubkey →
      royalty_phase inp inp.escrow_data.expected_amount = (rt, es, none) →
      final_amount_of inp.escrow_data.expected_amount
        (tax_of inp.escrow_data.expected_amount) rt = 0 →
      process_exchange dm pda inp amt =
        (Effect.xferSalesTax inp.taker_key inp.sales_tax_recipient_key
           (tax_of inp.escrow_data.expected_amount) :: es,
         some ProgError.invalidFinalAmount) := by
  intro dm pda inp amt rt es hcp hne hr hf
  have hp := paid_phase_of_final_zero hne hr hf
  rw [process_exchange_paid_err (validate_eq_none hcp) (by rw [hp]), hp]

/-- Witness for C2: price 80, royalty rate 9750 bps, one creator with share
100: tax 2 and royalty 78 leave a zero seller amount. -/
theorem c2_witness :
    process_exchange id 0
      { taker_key := 41, taker_is_signer := true, takers_token_to_receive_key := 42,
        pdas_temp_token_key := 43, pdas_temp_token_amount := 7,
        initializers_main_key := 44, initializers_main_lamports := 100,
        escrow_account_lamports := 50,
        escrow_data := { is_initialized := true, initializer_pubkey := 44,
                         mint_pubkey := 45, temp_token_account_pubkey := 43,
                         expected_amount := 80 },
        sales_tax_recipient_key := 8, mint_key := 45, metadata_key := 45,
        metadata_parse := some { data := { seller_fee_basis_points := 9750,
                                           creators := some [{ address := 31, share := 100 }] } },
        creator_account_keys := [31] } 7 =
      ([Effect.xferSalesTax 41 8 (tax_of 80), Effect.xferRoyalty 41 31 78],
       some ProgError.invalidFinalAmount) :=
  c2_invalid_final_amount id 0 _ 7 78 [Effect.xferRoyalty 41 31 78]
    ⟨rfl, rfl, rfl, rfl, rfl, rfl, rfl, rfl⟩ (by decide) rfl (by decide)

/-- C3 counterexample: two creators in metadata, the first supplied account
matches and the second does not: the royalty transfer of 500 to the first
creator is issued before Exchange returns CreatorMismatch, against the claim
that any mismatch aborts before any royalty transfer is issued. -/
theorem c3_counterexample :
    process_exchange id 0
      { taker_key := 1, taker_is_signer := true, takers_token_to_receive_key := 2,
        pdas_temp_token_key := 3, pdas_temp_token_amount := 7,
        initializers_main_key := 4, initializers_main_lamports := 100,
        escrow_account_lamports := 50,
        escrow_data := { is_initialized := true, initializer_pubkey := 4,
                         mint_pubkey := 5, temp_token_account_pubkey := 3,
                         expected_amount := 10000 },
        sales_tax_recipient_key := 8, mint_key := 5, metadata_key := 5,
        metadata_parse := some { data := { seller_fee_basis_points := 1000,
                                           creators := some [{ address := 11, share := 50 },
                                                             { address := 12, share := 50 }] } },
        creator_account_keys := [11, 9] } 7 =
      ([Effect.xferSalesTax 1 8 250, Effect.xferRoyalty 1 11 500],
       some ProgError.creatorMismatch) ∧
    ([Effect.xferSalesTax 1 8 250, Effect.xferRoyalty 1 11 500].any is_royalty) = true := by
  exact ⟨rfl, by decide⟩

/-- C3 (amended): in a paid settlement with parsed metadata listing creators
(and a royalty rate passing the combined-fee guard), the supplied trailing
creator-account list must equal the metadata creator list in length and
positional identity order; a wrong count makes Exchange fail with
CreatorMismatch before any royalty transfer is issued, while a wrong identity
at a later position makes it fail with CreatorMismatch only after the royalty
transfers for the earlier, matching positions have been issued. -/
theorem c3_creator_mismatch :
    ∀ (dm : Nat → Nat) (pda : Nat) (inp : ExchangeInput) (amt : Nat) (md : Metadata),
      checks_pass dm inp amt →
      inp.taker_key ≠ inp.escrow_data.initializer_pubkey →
      inp.metadata_parse = some md →
      ¬ md.data.seller_fee_basis_points + SALES_TAX > 10000 →
      (∀ cs : List Creator, md.data.creators = some cs →
          cs.length ≠ inp.creator_account_keys.length →
          process_exchange dm pda inp amt =
            ([Effect.xferSalesTax inp.taker_key inp.sales_tax_recipient_key
                (tax_of inp.escrow_data.expected_amount)],
             some ProgError.creatorMismatch)) ∧
      (∀ (pre : List Creator) (c : Creator) (rest : List Creator)
         (kpre : List Nat) (k : Nat) (krest : List Nat),
          md.data.creators = some (pre ++ c :: rest) →
          inp.creator_account_keys = kpre ++ k :: krest →
          pre.map Creator.address = kpre →
          rest.length = krest.length →
          c.address ≠ k →
          process_exchange dm pda inp amt =
            (Effect.xferSalesTax inp.taker_key inp.sales_tax_recipient_key
               (tax_of inp.escrow_data.expected_amount) ::
             royalty_transfers inp.taker_key
               (royalty_total_of md.data.seller_fee_basis_points
                 inp.escrow_data.expected_amount) pre,
             some ProgError.creatorMismatch)) := by
  intro dm pda inp amt md hcp hne hm hf
  constructor
  · intro cs hcs hlen
    have hr : royalty_phase inp inp.escrow_data.expected_amount =
        (royalty_total_of md.data.seller_fee_basis_points inp.escrow_data.expected_amount,
         [], some ProgError.creatorMismatch) := by
      simp [royalty_phase, hm, hf, hcs, hlen]
    have hp := paid_phase_of_royalty_err hne hr
    rw [process_exchange_paid_err (validate_eq_none hcp) (by rw [hp]), hp]
  · intro pre c rest kpre k krest hcs hk h3 h4 h5
    have hpl : pre.length = kpre.length := by
      rw [← h3, List.length_map]
    have hlen : (pre ++ c :: rest).length = inp.creator_account_keys.length := by
      rw [hk]
      simp [hpl, h4]
    have hr : royalty_phase inp inp.escrow_data.expected_amount =
        (royalty_total_of md.data.seller_fee_basis_points inp.escrow_data.expected_amount,
         royalty_transfers inp.taker_key
           (royalty_total_of md.data.seller_fee_basis_points
             inp.escrow_data.expected_amount) pre,
         some ProgError.creatorMismatch) := by
      simp only [royalty_phase, hm, hcs]
      rw [if_neg hf, if_neg (by simp [hlen]), hk]
      simp [creator_payouts_mismatch _ _ pre kpre c rest k krest h3 h5]
    have hp := paid_phase_of_royalty_err hne hr
    rw [process_exchange_paid_err (validate_eq_none hcp) (by rw [hp]), hp]

/-- Witness for C3: a count mismatch (one creator, no supplied account) and a
positional mismatch at the second of two creators. -/
theorem c3_witness :
    process_exchange id 0
      { taker_key := 51, taker_is_signer := true, takers_token_to_receive_key := 52,
        pdas_temp_token_key := 53, pdas_temp_token_amount := 7,
        initializers_main_key := 54, initializers_main_lamports := 100,
        escrow_account_lamports := 50,
        escrow_data := { is_initialized := true, initializer_pubkey := 54,
                         mint_pubkey := 55, temp_token_account_pubkey := 53,
                         expected_amount := 20000 },
        sales_tax_recipient_key := 8, mint_key := 55, metadata_key := 55,
        metadata_parse := some { data := { seller_fee_basis_points := 500,
                                           creators := some [{ address := 31, share := 100 }] } },
        creator_account_keys := [] } 7 =
      ([Effect.xferSalesTax 51 8 (tax_of 20000)], some ProgError.creatorMismatch) ∧
    process_exchange id 0
      { taker_key := 51, taker_is_signer := true, takers_token_to_receive_key := 52,
        pdas_temp_token_key := 53, pdas_temp_token_amount := 7,
        initializers_main_key := 54, initializers_main_lamports := 100,
        escrow_account_lamports := 50,
        escrow_data := { is_initialized := true, initializer_pubkey := 54,
                         mint_pubkey := 55, temp_token_account_pubkey := 53,
                         expected_amount := 20000 },
        sales_tax_recipient_key := 8, mint_key := 55, metadata_key := 55,
        metadata_parse := some { data := { seller_fee_basis_points := 500,
                                           creators := some [{ address := 31, share := 60 },
                                                             { address := 32, share := 40 }] } },
        creator_account_keys := [31, 19] } 7 =
      (Effect.xferSalesTax 51 8 (tax_of 20000) ::
       royalty_transfers 51 (royalty_total_of 500 20000) [{ address := 31, share := 60 }],
       some ProgError.creatorMismatch) := by
  have ha := c3_creator_mismatch id 0
      { taker_key := 51, taker_is_signer := true, takers_token_to_receive_key := 52,
        pdas_temp_token_key := 53, pdas_temp_token_amount := 7,
        initializers_main_key := 54, initializers_main_lamports := 100,
        escrow_account_lamports := 50,
        escrow_data := { is_initialized := true, initializer_pubkey := 54,
                         mint_pubkey := 55, temp_token_account_pubkey := 53,
                         expected_amount := 20000 },
        sales_tax_recipient_key := 8, mint_key := 55, metadata_key := 55,
        metadata_parse := some { data := { seller_fee_basis_points := 500,
                                           creators := some [{ address := 31, share := 100 }] } },
        creator_account_keys := [] } 7
      { data := { seller_fee_basis_points := 500,
                  creators := some [{ address := 31, share := 100 }] } }
      ⟨rfl, rfl, rfl, rfl, rfl, rfl, rfl, rfl⟩ (by decide) rfl (by decide)
  have hb := c3_creator_mismatch id 0
      { taker_key := 51, taker_is_signer := true, takers_token_to_receive_key := 52,
        pdas_temp_token_key := 53, pdas_temp_token_amount := 7,
        initializers_main_key := 54, initializers_main_lamports := 100,
        escrow_account_lamports := 50,
        escrow_data := { is_initialized := true, initializer_pubkey := 54,
                         mint_pubkey := 55, temp_token_account_pubkey := 53,
                         expected_amount := 20000 },
        sales_tax_recipient_key := 8, mint_key := 55, metadata_key := 55,
        metadata_parse := some { data := { seller_fee_basis_points := 500,
                                           creators := some [{ address := 31, share := 60 },
                                                             { address := 32, share := 40 }] } },
        creator_account_keys := [31, 19] } 7
      { data := { seller_fee_basis_points := 500,
                  creators := some [{ address := 31, share := 60 },
                                    { address := 32, share := 40 }] } }
      ⟨rfl, rfl, rfl, rfl, rfl, rfl, rfl, rfl⟩ (by decide) rfl (by decide)
  exact ⟨ha.1 [{ address := 31, share := 100 }] rfl (by decide),
         hb.2 [{ address := 31, share := 60 }] { address := 32, share := 40 } []
           [31] 19 [] rfl rfl rfl rfl (by decide)⟩

theorem common_tail_shape (pda : Nat) (inp : ExchangeInput) :
    (∀ e ∈ (common_tail pda inp).1, is_royalty e = false) ∧
    (common_tail pda inp).2 ≠ some ProgError.creatorMismatch := by
  unfold common_tail
  cases hca : checked_add inp.initializers_main_lamports inp.escrow_account_lamports <;>
    simp [hca, is_royalty]

/-- C6: an Exchange invocation whose taker is the escrow's initializer is a
cancellation: no tax, royalty or payment transfer is issued, yet the full
held unit balance is transferred to the taker's destination account, the held
account is closed to the initializer and the escrow record's balance is
credited to the initializer as the record is closed (the close-time addition
not overflowing). -/
theorem c6_cancellation :
    ∀ (dm : Nat → Nat) (pda : Nat) (inp : ExchangeInput) (amt : Nat),
      checks_pass dm inp amt →
      inp.taker_key = inp.escrow_data.initializer_pubkey →
      inp.initializers_main_lamports + inp.escrow_account_lamports < U64MOD →
      process_exchange dm pda inp amt =
        ([Effect.tokenTransferToTaker inp.pdas_temp_token_key
            inp.takers_token_to_receive_key pda inp.pdas_temp_token_amount,
          Effect.closeTempAccount inp.pdas_temp_token_key inp.initializers_main_key pda,
          Effect.closeEscrowCredit inp.initializers_main_key
            inp.escrow_account_lamports], none) := by
  intro dm pda inp amt hcp he hlt
  have hp := paid_phase_cancel he
  rw [process_exchange_paid_ok (validate_eq_none hcp) (by rw [hp]), hp,
    common_tail_ok hlt]
  rfl

/-- Witness for C6 at a concrete cancellation. -/
theorem c6_witness :
    process_exchange id 0
      { taker_key := 64, taker_is_signer := true, takers_token_to_receive_key := 62,
        pdas_temp_token_key := 63, pdas_temp_token_amount := 7,
        initializers_main_key := 64, initializers_main_lamports := 100,
        escrow_account_lamports := 50,
        escrow_data := { is_initialized := true, initializer_pubkey := 64,
                         mint_pubkey := 65, temp_token_account_pubkey := 63,
                         expected_amount := 1000 },
        sales_tax_recipient_key := 8, mint_key := 65, metadata_key := 65,
        metadata_parse := none, creator_account_keys := [] } 7 =
      ([Effect.tokenTransferToTaker 63 62 0 7,
        Effect.closeTempAccount 63 64 0,
        Effect.closeEscrowCredit 64 50], none) :=
  c6_cancellation id 0
    { taker_key := 64, taker_is_signer := true, takers_token_to_receive_key := 62,
      pdas_temp_token_key := 63, pdas_temp_token_amount := 7,
      initializers_main_key := 64, initializers_main_lamports := 100,
      escrow_account_lamports := 50,
      escrow_data := { is_initialized := true, initializer_pubkey := 64,
                       mint_pubkey := 65, temp_token_account_pubkey := 63,
                       expected_amount := 1000 },
      sales_tax_recipient_key := 8, mint_key := 65, metadata_key := 65,
      metadata_parse := none, creator_account_keys := [] } 7
    ⟨rfl, rfl, rfl, rfl, rfl, rfl, rfl, rfl⟩ rfl (by decide)

/-- C9: in a paid settlement whose metadata account fails to parse, or parses
with no creator list, Exchange performs no validation of the supplied
trailing creator-account list: the outcome is identical for every supplied
list, no royalty transfer is ever issued, and the invocation never fails with
CreatorMismatch - the royalty disbursement is simply skipped. -/
theorem c9_no_creator_validation :
    ∀ (dm : Nat → Nat) (pda : Nat) (inp : ExchangeInput) (amt : Nat),
      checks_pass dm inp amt →
      inp.taker_key ≠ inp.escrow_data.initializer_pubkey →
      (inp.metadata_parse = none ∨
       ∃ md, inp.metadata_parse = some md ∧ md.data.creators = none) →
      (∀ ks : List Nat,
         process_exchange dm pda { inp with creator_account_keys := ks } amt =
           process_exchange dm pda inp amt) ∧
      (∀ e ∈ (process_exchange dm pda inp amt).1, is_royalty e = false) ∧
      (process_exchange dm pda inp amt).2 ≠ some ProgError.creatorMismatch := by
  intro dm pda inp amt hcp hne hmd
  have hv := validate_eq_none hcp
  have hind : ∀ ks : List Nat,
      process_exchange dm pda { inp with creator_account_keys := ks } amt =
        process_exchange dm pda inp amt := by
    intro ks
    have h1 : validate dm { inp with creator_account_keys := ks } amt = none :=
      validate_eq_none (checks_pass_keys_irrel ks hcp)
    have h2 : paid_phase { inp with creator_account_keys := ks } = paid_phase inp := by
      simp only [paid_phase, royalty_phase_keys_irrel ks hmd]
    have h3 : common_tail pda { inp with creator_account_keys := ks } =
        common_tail pda inp := rfl
    unfold process_exchange
    simp only [h1, hv, h2, h3]
  obtain ⟨hnil, herr⟩ :=
    @royalty_phase_shape inp inp.escrow_data.expected_amount hmd
  have hrr : royalty_phase inp inp.escrow_data.expected_amount =
      ((royalty_phase inp inp.escrow_data.expected_amount).1, [],
       (royalty_phase inp inp.escrow_data.expected_amount).2.2) := by
    rw [← hnil]
  have main : (∀ e ∈ (process_exchange dm pda inp amt).1, is_royalty e = false) ∧
      (process_exchange dm pda inp amt).2 ≠ some ProgError.creatorMismatch := by
    rcases herr with hnone | hfee
    · have hr2 := hrr
      rw [hnone] at hr2
      by_cases hf : final_amount_of inp.escrow_data.expected_amount
          (tax_of inp.escrow_data.expected_amount)
          (royalty_phase inp inp.escrow_data.expected_amount).1 = 0
      · rw [process_exchange_paid_err hv (by rw [paid_phase_of_final_zero hne hr2 hf]),
          paid_phase_of_final_zero hne hr2 hf]
        constructor
        · intro e he
          simp at he
          subst he
          rfl
        · simp
      · rw [process_exchange_paid_ok hv (by rw [paid_phase_of_final_pos hne hr2 hf]),
          paid_phase_of_final_pos hne hr2 hf]
        constructor
        · intro e he
          simp at he
          rcases he with he | he | he
          · subst he; rfl
          · subst he; rfl
          · exact (common_tail_shape pda inp).1 e he
        · exact (common_tail_shape pda inp).2
    · have hr2 := hrr
      rw [hfee] at hr2
      rw [process_exchange_paid_err hv (by rw [paid_phase_of_royalty_err hne hr2]),
        paid_phase_of_royalty_err hne hr2]
      constructor
      · intro e he
        simp at he
        subst he
        rfl
      · simp
  exact ⟨hind, main.1, main.2⟩

/-- Witness for C9: unparsed metadata, price 1000; supplying a spurious
creator account changes nothing and no CreatorMismatch arises. -/
theorem c9_witness :
    process_exchange id 0
      { taker_key := 61, taker_is_signer := true, takers_token_to_receive_key := 62,
        pdas_temp_token_key := 63, pdas_temp_token_amount := 7,
        initializers_main_key := 64, initializers_main_lamports := 100,
        escrow_account_lamports := 50,
        escrow_data := { is_initialized := true, initializer_pubkey := 64,
                         mint_pubkey := 65, temp_token_account_pubkey := 63,
                         expected_amount := 1000 },
        sales_tax_recipient_key := 8, mint_key := 65, metadata_key := 65,
        metadata_parse := none, creator_account_keys := [99] } 7 =
      process_exchange id 0
        { taker_key := 61, taker_is_signer := true, takers_token_to_receive_key := 62,
          pdas_temp_token_key := 63, pdas_temp_token_amount := 7,
          initializers_main_key := 64, initializers_main_lamports := 100,
          escrow_account_lamports := 50,
          escrow_data := { is_initialized := true, initializer_pubkey := 64,
                           mint_pubkey := 65, temp_token_account_pubkey := 63,
                           expected_amount := 1000 },
          sales_tax_recipient_key := 8, mint_key := 65, metadata_key := 65,
          metadata_parse := none, creator_account_keys := [] } 7 ∧
    (process_exchange id 0
      { taker_key := 61, taker_is_signer := true, takers_token_to_receive_key := 62,
        pdas_temp_token_key := 63, pdas_temp_token_amount := 7,
        initializers_main_key := 64, initializers_main_lamports := 100,
        escrow_account_lamports := 50,
        escrow_data := { is_initialized := true, initializer_pubkey := 64,
                         mint_pubkey := 65, temp_token_account_pubkey := 63,
                         expected_amount := 1000 },
        sales_tax_recipient_key := 8, mint_key := 65, metadata_key := 65,
        metadata_parse := none, creator_account_keys := [] } 7).2 ≠
      some ProgError.creatorMismatch := by
  have h := c9_no_creator_validation id 0
    { taker_key := 61, taker_is_signer := true, takers_token_to_receive_key := 62,
      pdas_temp_token_key := 63, pdas_temp_token_amount := 7,
      initializers_main_key := 64, initializers_main_lamports := 100,
      escrow_account_lamports := 50,
      escrow_data := { is_initialized := true, initializer_pubkey := 64,
                       mint_pubkey := 65, temp_token_account_pubkey := 63,
                       expected_amount := 1000 },
      sales_tax_recipient_key := 8, mint_key := 65, metadata_key := 65,
      metadata_parse := none, creator_account_keys := [] } 7
    ⟨rfl, rfl, rfl, rfl, rfl, rfl, rfl, rfl⟩ (by decide) (Or.inl rfl)
  exact ⟨h.1 [99], h.2.2⟩

/-- C4 counterexample: a paid settlement completes at price 2^63, but the
issued sales-tax amount is the u64-wrapped tax_of (2^63) = 0, not
floor(P * T / 10000) = 230584300921369395: the claimed tax equation fails
at that price. -/
theorem c4_counterexample :
    process_exchange id 0
      { taker_key := 1, taker_is_signer := true, takers_token_to_receive_key := 2,
        pdas_temp_token_key := 3, pdas_temp_token_amount := 7,
        initializers_main_key := 4, initializers_main_lamports := 100,
        escrow_account_lamports := 50,
        escrow_data := { is_initialized := true, initializer_pubkey := 4,
                         mint_pubkey := 5, temp_token_account_pubkey := 3,
                         expected_amount := 2 ^ 63 },
        sales_tax_recipient_key := 8, mint_key := 5, metadata_key := 5,
        metadata_parse := none, creator_account_keys := [] } 7 =
      ([Effect.xferSalesTax 1 8 (tax_of (2 ^ 63)),
        Effect.xferPayment 1 4 9223372036854775808,
        Effect.tokenTransferToTaker 3 2 0 7,
        Effect.closeTempAccount 3 4 0,
        Effect.closeEscrowCredit 4 50], none) ∧
    tax_of (2 ^ 63) ≠ 2 ^ 63 * SALES_TAX / 10000 := by
  exact ⟨rfl, by decide⟩

/-- C4 (amended): for every price P and royalty rate R whose products with
the rates fit in u64 (P * SALES_TAX < 2^64 and R * P < 2^64) and whose rates
pass the combined-fee guard (R + SALES_TAX at most 10000, enforced before the
seller amount is computed), the settlement arithmetic satisfies
tax = floor(P * SALES_TAX / 10000), royalty_total = floor(R * P / 10000),
final = P - tax - royalty_total, and tax + royalty_total + final = P whenever
final is positive. -/
theorem c4_fee_arithmetic :
    ∀ P R : Nat, P * SALES_TAX < U64MOD → R * P < U64MOD → R + SALES_TAX ≤ 10000 →
      tax_of P = P * SALES_TAX / 10000 ∧
      royalty_total_of R P = R * P / 10000 ∧
      final_amount_of P (tax_of P) (royalty_total_of R P) =
        P - tax_of P - royalty_total_of R P ∧
      (0 < final_amount_of P (tax_of P) (royalty_total_of R P) →
        tax_of P + royalty_total_of R P +
          final_amount_of P (tax_of P) (royalty_total_of R P) = P) := by
  intro P R hP hR hfee
  have h250 : (1 : Nat) ≤ SALES_TAX := by norm_num [SALES_TAX]
  have hP' : P < U64MOD := by
    calc P = P * 1 := (mul_one P).symm
      _ ≤ P * SALES_TAX := mul_le_mul_left' h250 P
      _ < U64MOD := hP
  have htax : tax_of P = P * SALES_TAX / 10000 := by
    unfold tax_of mul64
    rw [Nat.mod_eq_of_lt hP]
  have hrt : royalty_total_of R P = R * P / 10000 := by
    unfold royalty_total_of mul64
    rw [Nat.mod_eq_of_lt hR]
  have hsum : tax_of P + royalty_total_of R P ≤ P := by
    rw [htax, hrt]
    have h1 : P * SALES_TAX / 10000 + R * P / 10000 ≤ (P * SALES_TAX + R * P) / 10000 :=
      Nat.add_div_le_add_div _ _ _
    have h2 : (P * SALES_TAX + R * P) / 10000 ≤ P := by
      have hm : P * SALES_TAX + R * P ≤ P * 10000 := by
        have he : P * SALES_TAX + R * P = P * (SALES_TAX + R) := by ring
        rw [he]
        exact mul_le_mul_left' (by omega) P
      calc (P * SALES_TAX + R * P) / 10000 ≤ P * 10000 / 10000 :=
          Nat.div_le_div_right hm
        _ = P := by omega
    omega
  have hfin : final_amount_of P (tax_of P) (royalty_total_of R P) =
      P - tax_of P - royalty_total_of R P := by
    unfold final_amount_of
    rw [sub64_of_le (by omega) hP', sub64_of_le (by omega) (by omega)]
  refine ⟨htax, hrt, hfin, fun h => ?_⟩
  rw [hfin]
  omega

/-- Witness for C4 at price 1000 and royalty rate 500 bps. -/
theorem c4_witness :
    tax_of 1000 = 1000 * SALES_TAX / 10000 ∧
    royalty_total_of 500 1000 = 500 * 1000 / 10000 ∧
    final_amount_of 1000 (tax_of 1000) (royalty_total_of 500 1000) =
      1000 - tax_of 1000 - royalty_total_of 500 1000 ∧
    (0 < final_amount_of 1000 (tax_of 1000) (royalty_total_of 500 1000) →
      tax_of 1000 + royalty_total_of 500 1000 +
        final_amount_of 1000 (tax_of 1000) (royalty_total_of 500 1000) = 1000) :=
  c4_fee_arithmetic 1000 500 (by decide) (by decide) (by decide)

/-- C5: the settlement tax and royalty computations are unchecked u64
multiplications that wrap on overflow, in contrast with the overflow-checked
addition used when closing the escrow record: at price 2^63 the products
price * SALES_TAX and 9750 * price exceed u64::MAX, the computed amounts
differ from the exact quotients, and the settlement completes without any
error, whereas the record-close addition of two 2^63 balances returns
AmountOverflow. -/
theorem c5_unchecked_overflow :
    (U64MOD ≤ 2 ^ 63 * SALES_TAX ∧ tax_of (2 ^ 63) ≠ 2 ^ 63 * SALES_TAX / 10000) ∧
    (U64MOD ≤ 9750 * 2 ^ 63 ∧
     royalty_total_of 9750 (2 ^ 63) ≠ 9750 * 2 ^ 63 / 10000) ∧
    process_exchange id 0
      { taker_key := 81, taker_is_signer := true, takers_token_to_receive_key := 82,
        pdas_temp_token_key := 83, pdas_temp_token_amount := 7,
        initializers_main_key := 84, initializers_main_lamports := 100,
        escrow_account_lamports := 50,
        escrow_data := { is_initialized := true, initializer_pubkey := 84,
                         mint_pubkey := 85, temp_token_account_pubkey := 83,
                         expected_amount := 2 ^ 63 },
        sales_tax_recipient_key := 8, mint_key := 85, metadata_key := 85,
        metadata_parse := none, creator_account_keys := [] } 7 =
      ([Effect.xferSalesTax 81 8 (tax_of (2 ^ 63)),
        Effect.xferPayment 81 84 9223372036854775808,
        Effect.tokenTransferToTaker 83 82 0 7,
        Effect.closeTempAccount 83 84 0,
        Effect.closeEscrowCredit 84 50], none) ∧
    (checked_add (2 ^ 63) (2 ^ 63) = none ∧
     process_exchange id 0
       { taker_key := 71, taker_is_signer := true, takers_token_to_receive_key := 72,
         pdas_temp_token_key := 73, pdas_temp_token_amount := 7,
         initializers_main_key := 74, initializers_main_lamports := 2 ^ 63,
         escrow_account_lamports := 2 ^ 63,
         escrow_data := { is_initialized := true, initializer_pubkey := 74,
                          mint_pubkey := 75, temp_token_account_pubkey := 73,
                          expected_amount := 1000 },
         sales_tax_recipient_key := 8, mint_key := 75, metadata_key := 75,
         metadata_parse := none, creator_account_keys := [] } 7 =
       ([Effect.xferSalesTax 71 8 25, Effect.xferPayment 71 74 975,
         Effect.tokenTransferToTaker 73 72 0 7,
         Effect.closeTempAccount 73 74 0],
        some ProgError.amountOverflow)) := by
  exact ⟨⟨by decide, by decide⟩, ⟨by decide, by decide⟩, rfl, ⟨by decide, rfl⟩⟩

end EscrowSC
